import Mathlib

/-!
Verification of the Vortex theme-extraction utilities
(src/vortex-theme-utils.js).

The JavaScript source is shallowly embedded below:

* strings are Lean `String`s, processed through their `List Char` data;
* the specific regular expressions of the source
  (an rgb/rgba matcher and an alpha-component matcher) are implemented
  as deterministic matchers that realise exactly the backtracking
  behaviour of those patterns (the character classes of adjacent
  greedy pieces are disjoint, so maximal munch is exact);
* JavaScript `parseFloat` is applied by the source only to strings of
  digits and dots; its result is modelled as an exact decimal number
  `DecNum` with value `m / 10 ^ s` (`none` models `NaN`).  Binary
  floating-point rounding of `parseFloat` is idealised away: the
  decimal value is kept exactly;
* `Math.pow` (used only in the gamma correction of the OKLab
  conversion) is an uninterpreted parameter `powf`, and that
  conversion is modelled over `ℚ`;
* the DOM is modelled by explicit document records: the ancestor
  chain of the selected element together with the computed styles the
  source reads, and, for the border extractor, a focus/transition
  state machine.  Each extractor returns its result, the final
  document state, and the trace of external operations it performed.
-/

/-! ### JavaScript string and number primitives -/

/-- Character class of the regex `\s` (ASCII part; the source only ever
meets ASCII whitespace in engine-produced color strings). -/
def jsIsSpace (c : Char) : Bool :=
  c == ' ' || c == '\t' || c == '\n' || c == '\r' || c.toNat == 11 || c.toNat == 12

/-- Character class of the regex `[\d.]`. -/
def jsIsDigitDot (c : Char) : Bool :=
  c.isDigit || c == '.'

/-- Numeric value of a digit string, as read by `parseInt` on a `\d+` match. -/
def digitsToNat (l : List Char) : Nat :=
  l.foldl (fun acc c => acc * 10 + (c.toNat - 48)) 0

/-- An exact decimal number `m / 10 ^ s`: the value of a `parseFloat`
applied to a string of digits and dots.  The binary floating-point
rounding of the engine is idealised: the decimal value is exact. -/
structure DecNum where
  m : Nat
  s : Nat
deriving DecidableEq, Repr

/-- Whether the decimal value equals 1 exactly (the `a !== 1` / `alpha === 1`
tests of the source). -/
def DecNum.isOne (d : DecNum) : Bool :=
  d.m == 10 ^ d.s

/-- `Math.round(a * 255)` for the nonnegative decimal `a = m / 10 ^ s`:
`floor(a * 255 + 1/2)` computed exactly over naturals. -/
def DecNum.alphaByte (d : DecNum) : Nat :=
  (510 * d.m + 10 ^ d.s) / (2 * 10 ^ d.s)

/-- `parseFloat` on a `[\d.]+` match: longest decimal prefix; `none`
models `NaN` (as for the input consisting of a dot alone). -/
def jsParseFloat (l : List Char) : Option DecNum :=
  let ip := l.takeWhile Char.isDigit
  match l.dropWhile Char.isDigit with
  | '.' :: rest =>
    let fp := rest.takeWhile Char.isDigit
    if ip = [] && fp = [] then none
    else some ⟨digitsToNat ip * 10 ^ fp.length + digitsToNat fp, fp.length⟩
  | _ => if ip = [] then none else some ⟨digitsToNat ip, 0⟩

/-- Substring test, the semantics of `String.prototype.includes`. -/
def containsSub : List Char → List Char → Bool
  | l, sub =>
    if sub.isPrefixOf l then true
    else match l with
      | [] => false
      | _ :: rest => containsSub rest sub

/-- `s.includes(sub)` on Lean strings. -/
def jsIncludes (s sub : String) : Bool :=
  containsSub s.data sub.data

/-- ASCII uppercase conversion of one character
(`String.prototype.toUpperCase`, restricted to the ASCII strings the
source produces). -/
def jsToUpperChar (c : Char) : Char :=
  if 97 ≤ c.toNat ∧ c.toNat ≤ 122 then Char.ofNat (c.toNat - 32) else c

/-- ASCII lowercase conversion of one character
(`String.prototype.toLowerCase` on tag names). -/
def jsToLowerChar (c : Char) : Char :=
  if 65 ≤ c.toNat ∧ c.toNat ≤ 90 then Char.ofNat (c.toNat + 32) else c

/-- `tagName.toLowerCase()`. -/
def jsToLowerStr (s : String) : String :=
  String.mk (s.data.map jsToLowerChar)

/-- One lowercase hexadecimal digit, as produced by `Number.prototype.toString(16)`. -/
def hexDigitChar (n : Nat) : Char :=
  "0123456789abcdef".data.getD n '0'

/-- Digits of `n.toString(16)` (fuel-structured so that it reduces in the kernel). -/
def natToHexAux : Nat → Nat → List Char
  | 0, _ => []
  | fuel + 1, n => if n < 16 then [hexDigitChar n] else natToHexAux fuel (n / 16) ++ [hexDigitChar (n % 16)]

/-- `n.toString(16)` for a natural number. -/
def natToHex (n : Nat) : List Char :=
  natToHexAux (n + 1) n

/-- `padStart(2, '0')`. -/
def padStart2 (l : List Char) : List Char :=
  if l.length < 2 then List.replicate (2 - l.length) '0' ++ l else l

/-! ### The regex `rgba?\((\d+),\s*(\d+),\s*(\d+)(?:,\s*([\d.]+))?\)`

`jsMatchRgb` finds the leftmost match and returns the four capture
groups.  Greedy pieces are realised by maximal munch: each `\d+`
(resp. `[\d.]+`, `\s*`) is followed by a character outside its own
class, so regex backtracking can never shrink a maximal munch into a
successful match, and the optional alpha group is attempted exactly
when a comma follows the third group (if the comma is present the
pattern can only complete through the alpha branch). -/

/-- Capture groups of the rgb/rgba pattern: the three channel digit
strings and the optional alpha string. -/
abbrev RgbGroups := List Char × List Char × List Char × Option (List Char)

/-- Matches `(\d+),\s*(\d+),\s*(\d+)(?:,\s*([\d.]+))?\)` immediately after
the opening parenthesis. -/
def matchRgbBody (l : List Char) : Option RgbGroups :=
  let g1 := l.takeWhile Char.isDigit
  if g1 = [] then none else
  match l.dropWhile Char.isDigit with
  | ',' :: r2 =>
    let r2s := r2.dropWhile jsIsSpace
    let g2 := r2s.takeWhile Char.isDigit
    if g2 = [] then none else
    match r2s.dropWhile Char.isDigit with
    | ',' :: r3 =>
      let r3s := r3.dropWhile jsIsSpace
      let g3 := r3s.takeWhile Char.isDigit
      if g3 = [] then none else
      match r3s.dropWhile Char.isDigit with
      | ')' :: _ => some (g1, g2, g3, none)
      | ',' :: r4 =>
        let r4s := r4.dropWhile jsIsSpace
        let g4 := r4s.takeWhile jsIsDigitDot
        if g4 = [] then none else
        match r4s.dropWhile jsIsDigitDot with
        | ')' :: _ => some (g1, g2, g3, some g4)
        | _ => none
      | _ => none
    | _ => none
  | _ => none

/-- Attempts the rgb/rgba pattern at one start position: `rgba?\(` then
the body (the greedy `a?` succeeds exactly when `a(` follows `rgb`). -/
def matchRgbAt : List Char → Option RgbGroups
  | 'r' :: 'g' :: 'b' :: 'a' :: '(' :: r => matchRgbBody r
  | 'r' :: 'g' :: 'b' :: '(' :: r => matchRgbBody r
  | _ => none

/-- Leftmost match of the rgb/rgba pattern (`String.prototype.match`). -/
def jsMatchRgb : List Char → Option RgbGroups
  | [] => none
  | c :: rest =>
    match matchRgbAt (c :: rest) with
    | some g => some g
    | none => jsMatchRgb rest

/-- Attempts the alpha pattern `,\s*([\d.]+)\)` at one start position. -/
def matchAlphaAt : List Char → Option (List Char)
  | ',' :: rest =>
    let r := rest.dropWhile jsIsSpace
    let g := r.takeWhile jsIsDigitDot
    if g = [] then none
    else match r.dropWhile jsIsDigitDot with
      | ')' :: _ => some g
      | _ => none
  | _ => none

/-- Leftmost match of the alpha pattern `,\s*([\d.]+)\)`. -/
def jsMatchAlpha : List Char → Option (List Char)
  | [] => none
  | c :: rest =>
    match matchAlphaAt (c :: rest) with
    | some g => some g
    | none => jsMatchAlpha rest

/-! ### vortexRgbToHex (source lines 11-32) -/

/-- The six-digit part built at source line 23:
`'#' + toHex(r) + toHex(g) + toHex(b)` (still lowercase). -/
def hexCore (g1 g2 g3 : List Char) : List Char :=
  '#' :: (padStart2 (natToHex (digitsToNat g1)) ++ padStart2 (natToHex (digitsToNat g2)) ++ padStart2 (natToHex (digitsToNat g3)))

/-- The alpha suffix appended at source lines 26-29: present when the
alpha group matched and its parsed value is not exactly 1.  A `NaN`
alpha (conceivable only for a degenerate `[\d.]+` match such as a dot
alone) yields the characters of `Math.round(NaN).toString(16)`,
namely `NaN`. -/
def alphaPart (g4 : Option (List Char)) : List Char :=
  match g4 with
  | none => []
  | some l =>
    match jsParseFloat l with
    | none => padStart2 ['N', 'a', 'N']
    | some d => if d.isOne then [] else padStart2 (natToHex d.alphaByte)

/-- `window.vortexRgbToHex`: parse the leftmost rgb/rgba occurrence; on
failure return the input unchanged, otherwise build the uppercased hex
string. -/
def vortexRgbToHex (rgbString : String) : String :=
  match jsMatchRgb rgbString.data with
  | none => rgbString
  | some (g1, g2, g3, g4) => String.mk ((hexCore g1 g2 g3 ++ alphaPart g4).map jsToUpperChar)

/-! ### vortexOklabToRgb (source lines 41-64)

Modelled over `ℚ`; `Math.pow` is the uninterpreted parameter `powf`. -/

/-- `Math.round` over the rationals: `floor(q + 1/2)`. -/
def jsMathRound (q : ℚ) : ℤ :=
  Rat.floor (q + 1/2)

/-- One output channel (source lines 59-63): scale by 255, round to
nearest, clamp to [0, 255]. -/
def clampByte (v : ℚ) : ℤ :=
  max 0 (min 255 (jsMathRound (v * 255)))

/-- sRGB gamma transfer (source lines 54-56), with `Math.pow` abstract. -/
def gammaEncode (powf : ℚ → ℚ → ℚ) (v : ℚ) : ℚ :=
  if v > 0.0031308 then 1.055 * powf v (1 / 2.4) - 0.055 else 12.92 * v

/-- `window.vortexOklabToRgb`. -/
def vortexOklabToRgb (powf : ℚ → ℚ → ℚ) (L a b : ℚ) : ℤ × ℤ × ℤ :=
  let l := L + 0.3963377774 * a + 0.2158037573 * b
  let m := L - 0.1055613458 * a - 0.0638541728 * b
  let s := L - 0.0894841775 * a - 1.2914855480 * b
  let l3 := l * l * l
  let m3 := m * m * m
  let s3 := s * s * s
  let r := 4.0767416621 * l3 - 3.0771159139 * m3 + 0.2309699292 * s3
  let g := -1.2684380046 * l3 + 2.6097574011 * m3 - 0.3413193965 * s3
  let bl := -0.0041960863 * l3 - 0.7034186147 * m3 + 1.7076147010 * s3
  (clampByte (gammaEncode powf r), clampByte (gammaEncode powf g), clampByte (gammaEncode powf bl))

/-! ### DOM model shared by both extractors -/

/-- External operations the extractors perform against the live
document, in order: focus mutations, the neutral click, the settle
delay, and computed-style reads. -/
inductive Ev where
  | blurActive
  | blurTarget
  | clickBody
  | wait (ms : Nat)
  | readStyle (prop : String)
deriving DecidableEq, Repr

/-- An element of the ancestor chain, with the properties the
background resolver reads.  `className` is `none` when the DOM
`className` is not a string (e.g. SVG elements). -/
structure VElem where
  className : Option String
  tagName : String
  role : Option String
  bgColor : String
deriving DecidableEq, Repr

/-- Ambient focus state of the document. -/
inductive FocusSt where
  | onTarget
  | elsewhere
  | nofocus
deriving DecidableEq, Repr

/-! ### vortexExtractFormContainerBackground (source lines 123-222) -/

/-- Document as seen by the background resolver: whether the selector
matches, the ancestor chain of the target (target first), and the
ambient focus state (carried only to make the absence of focus
mutation observable). -/
structure ContainerDoc where
  found : Bool
  chain : List VElem
  focus : FocusSt
deriving DecidableEq, Repr

/-- Result record `{color, element}` of the background resolver. -/
structure ContainerResult where
  color : String
  element : String
deriving DecidableEq, Repr

/-- The ancestor walk of source lines 133-146: visit at most 15 levels,
recording `(level, element)` whenever the computed background color is
not fully transparent. -/
def collectBgAux : Nat → List VElem → List (Nat × VElem)
  | _, [] => []
  | i, e :: rest =>
    if i < 15 then
      (if e.bgColor == "rgba(0, 0, 0, 0)" || e.bgColor == "transparent" then [] else [(i, e)])
        ++ collectBgAux (i + 1) rest
    else []

/-- Background candidates of the walk, in ascending depth order. -/
def collectBg (chain : List VElem) : List (Nat × VElem) :=
  collectBgAux 0 chain

/-- The `modalElement` computed during the walk (source lines 140-144).
The source records it but never reads it afterwards; it is kept here
for fidelity and is unused by the extraction result. -/
def modalElementOf (chain : List VElem) : Option VElem :=
  (chain.take 15).find? fun e =>
    match e.className with
    | some s => !(s == "") && (jsIncludes s "modal" || jsIncludes s "dialog" || jsIncludes s "form")
    | none => false

/-- The semantic-container test of source lines 156-160: the element's
own class list contains a modal/dialog/form marker, or its tag is
`DIALOG`, or it carries the `dialog` role.  A non-string `className`
is replaced by the empty string, as in the source's `typeof` ternary. -/
def containerMarked (e : VElem) : Bool :=
  let cn := match e.className with | some s => s | none => ""
  jsIncludes cn "modal" || jsIncludes cn "dialog" || jsIncludes cn "form"
    || e.tagName == "DIALOG" || e.role == some "dialog"

/-- The alpha test of source lines 166-173 and 194-201: the first
`,\s*([\d.]+)\)` match parsed by `parseFloat`, defaulting to 0 when the
pattern does not match; the candidate counts as solid when this value
is exactly 1. -/
def jsAlphaIsOne (c : String) : Bool :=
  match jsMatchAlpha c.data with
  | none => false
  | some g =>
    match jsParseFloat g with
    | none => false
    | some d => d.isOne

/-- A recorded color is solid when it does not contain `rgba`, or its
extracted alpha is exactly 1 (source lines 162-174). -/
def isSolidColor (c : String) : Bool :=
  !(jsIncludes c "rgba") || jsAlphaIsOne c

/-- `tagName.toLowerCase()` is `body` or `html` (source lines 183-186). -/
def isRootTag (e : VElem) : Bool :=
  jsToLowerStr e.tagName == "body" || jsToLowerStr e.tagName == "html"

/-- The fallback scan of source lines 181-203: walk the recorded
candidates from the highest depth downward, skip `body`/`html`, and
stop at the first solid one. -/
def pickFallback : List (Nat × VElem) → Option (Nat × VElem)
  | [] => none
  | p :: rest =>
    if isRootTag p.2 then pickFallback rest
    else if isSolidColor p.2.bgColor then some p
    else pickFallback rest

/-- JavaScript truthiness of the `formContainerBg` variable: falsy when
still `null` or when it holds the empty string. -/
def strFalsy : Option String → Bool
  | none => true
  | some s => s == ""

/-- `containerElement?.className || containerElement?.tagName || 'unknown'`
(source line 220).  A non-string `className` object (always truthy in
JavaScript) is outside the string-valued model and is approximated by
falling through to the tag name. -/
def containerDescriptor : Option VElem → String
  | none => "unknown"
  | some e =>
    match e.className with
    | some s => if s == "" then (if e.tagName == "" then "unknown" else e.tagName) else s
    | none => if e.tagName == "" then "unknown" else e.tagName

/-- State of the two selection variables `formContainerBg` and
`containerElement` (source lines 149-150). -/
abbrev SelSt := Option String × Option VElem

/-- Selection rule (a), source lines 153-176: the first (lowest-depth)
candidate whose element is container-marked and whose color is solid. -/
def selectContainerRule (bgs : List (Nat × VElem)) : SelSt :=
  match bgs.find? (fun p => containerMarked p.2 && isSolidColor p.2.bgColor) with
  | some p => (some p.2.bgColor, some p.2)
  | none => (none, none)

/-- Selection rule (b), source lines 180-204: if nothing was selected,
scan from the highest depth downward for a solid non-`body`/`html`
candidate. -/
def selectFallbackRule (bgs : List (Nat × VElem)) (st : SelSt) : SelSt :=
  if strFalsy st.1 then
    match pickFallback bgs.reverse with
    | some p => (some p.2.bgColor, some p.2)
    | none => st
  else st

/-- Selection rule (c), source lines 207-210: if still nothing, take the
highest-depth recorded candidate. -/
def selectLastRule (bgs : List (Nat × VElem)) (st : SelSt) : SelSt :=
  if strFalsy st.1 && !bgs.isEmpty then
    match bgs.getLast? with
    | some p => (some p.2.bgColor, some p.2)
    | none => st
  else st

/-- `window.vortexExtractFormContainerBackground`: result, final
document state, and trace of performed operations.  The function
queries the selector, walks the ancestor chain reading computed
background colors, applies the three selection rules, and either
throws or converts the selected color to hex.  It performs no focus
operation. -/
def vortexExtractFormContainerBackground (selector : String) (doc : ContainerDoc) :
    Except String ContainerResult × ContainerDoc × List Ev :=
  match doc.found with
  | false => (.error ("Element not found: " ++ selector), doc, [])
  | true =>
    let backgrounds := collectBg doc.chain
    let trace := (doc.chain.take 15).map fun _ => Ev.readStyle "backgroundColor"
    let st1 := selectContainerRule backgrounds
    let st2 := selectFallbackRule backgrounds st1
    let st3 := selectLastRule backgrounds st2
    let res : Except String ContainerResult :=
      match st3.1 with
      | none => .error "Could not find form container background"
      | some c =>
        if c == "" then .error "Could not find form container background"
        else .ok ⟨vortexRgbToHex c, containerDescriptor st3.2⟩
    (res, doc, trace)

/-! ### vortexExtractFormFieldBorderColor (source lines 73-114) -/

/-- Document as seen by the border extractor: whether the selector
matches, the focus/transition state of the target, the transition
duration of its border color, the computed styles of the target and of
its structural parent.  `sinceBlur` is the time elapsed since the
target last lost focus; the computed border color of the target is
`focusColor` while focused, an interpolated `midColor` while a
transition is still running, and `restColor` once settled. -/
structure FieldDoc where
  found : Bool
  focus : FocusSt
  sinceBlur : Nat
  transDur : Nat
  restColor : String
  focusColor : String
  midColor : String
  selfWidth : String
  selfClassName : String
  selfTagName : String
  parentColor : String
  parentWidth : String
  parentClassName : String
  parentTagName : String
deriving DecidableEq, Repr

/-- Result record `{color, element, width}` of the border extractor. -/
structure FieldResult where
  color : String
  element : String
  width : String
deriving DecidableEq, Repr

/-- `document.activeElement.blur()` guarded by `if (document.activeElement)`
(source lines 81-83).  Blurring the target starts its blur transition
clock; blurring another element leaves the target's clock alone. -/
def blurActiveStep (d : FieldDoc) : FieldDoc × List Ev :=
  match d.focus with
  | .nofocus => (d, [])
  | .onTarget => ({ d with focus := .nofocus, sinceBlur := 0 }, [.blurActive])
  | .elsewhere => ({ d with focus := .nofocus }, [.blurActive])

/-- `input.blur()` (source line 84): defocuses the target when focused,
a no-op otherwise. -/
def blurTargetStep (d : FieldDoc) : FieldDoc × List Ev :=
  match d.focus with
  | .onTarget => ({ d with focus := .nofocus, sinceBlur := 0 }, [.blurTarget])
  | _ => (d, [.blurTarget])

/-- `document.body.click()` (source line 87): a synthetic click moves no
focus. -/
def clickBodyStep (d : FieldDoc) : FieldDoc × List Ev :=
  (d, [.clickBody])

/-- The settle delay (source line 91): time passes, advancing the blur
transition clock of the unfocused target. -/
def waitStep (d : FieldDoc) (ms : Nat) : FieldDoc × List Ev :=
  match d.focus with
  | .onTarget => (d, [.wait ms])
  | _ => ({ d with sinceBlur := d.sinceBlur + ms }, [.wait ms])

/-- Computed `borderColor` of the target: the focused color while
focused, an interpolated color while the blur transition is running,
the resting color once it has completed. -/
def computedBorderColor (d : FieldDoc) : String :=
  match d.focus with
  | .onTarget => d.focusColor
  | _ => if d.sinceBlur < d.transDur then d.midColor else d.restColor

/-- Document state after the defocus sequence and the 200-unit settle
delay (source lines 81-91). -/
def settleSteps (d : FieldDoc) : FieldDoc :=
  (waitStep (clickBodyStep (blurTargetStep (blurActiveStep d).1).1).1 200).1

/-- JavaScript `a || b` on strings (used for the element descriptor at
source line 111). -/
def jsOrStr (a b : String) : String :=
  if a == "" then b else a

/-- `window.vortexExtractFormFieldBorderColor`: result, final document
state, and trace.  After locating the target it defocuses the active
element and the target, clicks a neutral region, waits 200 time units,
then reads the border width; a zero-width target delegates the border
reads to its structural parent. -/
def vortexExtractFormFieldBorderColor (selector : String) (d : FieldDoc) :
    Except String FieldResult × FieldDoc × List Ev :=
  match d.found with
  | false => (.error ("Element not found: " ++ selector), d, [])
  | true =>
    let p1 := blurActiveStep d
    let p2 := blurTargetStep p1.1
    let p3 := clickBodyStep p2.1
    let p4 := waitStep p3.1 200
    let d4 := p4.1
    let evs := p1.2 ++ p2.2 ++ p3.2 ++ p4.2
      ++ [Ev.readStyle "borderWidth", Ev.readStyle "borderColor", Ev.readStyle "borderWidth"]
    let inputBorderWidth := d4.selfWidth
    let res : Except String FieldResult :=
      if inputBorderWidth == "0px" || inputBorderWidth == "0" then
        .ok ⟨vortexRgbToHex d4.parentColor, jsOrStr d4.parentClassName d4.parentTagName, d4.parentWidth⟩
      else
        .ok ⟨vortexRgbToHex (computedBorderColor d4), jsOrStr d4.selfClassName d4.selfTagName, d4.selfWidth⟩
    (res, d4, evs)

/-! ### Result observers and specification-side definitions -/

/-- Color component of a successful background resolution. -/
def resultColor? : Except String ContainerResult → Option String
  | .ok r => some r.color
  | .error _ => none

/-- Color component of a successful border extraction. -/
def fieldColor? : Except String FieldResult → Option String
  | .ok r => some r.color
  | .error _ => none

/-- Width component of a successful border extraction. -/
def fieldWidth? : Except String FieldResult → Option String
  | .ok r => some r.width
  | .error _ => none

/-- Error message of a failed extraction. -/
def errMsg? {α : Type} : Except String α → Option String
  | .ok _ => none
  | .error e => some e

/-- Whether an extraction failed. -/
def isErr {α : Type} : Except String α → Bool
  | .ok _ => false
  | .error _ => true

/-- Specification-side reading of claim C1's qualification: a recorded
candidate is solid and lies inside or at a semantic-container element
(some ancestor at its own depth or above is container-marked). -/
def claimC1Qualifies (chain : List VElem) (p : Nat × VElem) : Bool :=
  isSolidColor p.2.bgColor && (chain.drop p.1).any containerMarked

/-- Specification-side selection of claim C1: the color of the
lowest-depth qualifying candidate. -/
def claimC1Pick (chain : List VElem) : Option String :=
  ((collectBg chain).find? (claimC1Qualifies chain)).map fun p => p.2.bgColor

/-- The code-side qualification of selection rule (a): the candidate's
own element is container-marked and its color is solid. -/
def codeQualifies (p : Nat × VElem) : Bool :=
  containerMarked p.2 && isSolidColor p.2.bgColor

/-- Specification-side description of selection rule (b): first solid
non-root candidate, scanning from the highest depth downward. -/
def specFallbackFind (bgs : List (Nat × VElem)) : Option (Nat × VElem) :=
  bgs.reverse.find? fun p => !(isRootTag p.2) && isSolidColor p.2.bgColor

/-- The non-read events of the border extractor that precede the settle
delay: the conditional active-element blur, the target blur, and the
neutral click. -/
def preReadEvs (d : FieldDoc) : List Ev :=
  (match d.focus with | .nofocus => [] | _ => [Ev.blurActive]) ++ [Ev.blurTarget, Ev.clickBody]

/-- An uppercase hexadecimal digit. -/
def isUpperHexDigit (c : Char) : Bool :=
  c.isDigit || ('A' ≤ c && c ≤ 'F')

/-! ### Concrete documents used by witnesses and counterexamples -/

/-- The scenario of the repository's Playwright test: a focused input
with a border-color transition inside a solid modal. -/
def exBorderDoc : FieldDoc :=
  { found := true, focus := .onTarget, sinceBlur := 0, transDur := 200
    restColor := "rgb(235, 230, 223)", focusColor := "rgb(3, 212, 124)"
    midColor := "rgb(100, 150, 160)"
    selfWidth := "2px", selfClassName := "", selfTagName := "INPUT"
    parentColor := "rgb(9, 9, 9)", parentWidth := "1px"
    parentClassName := "wrap", parentTagName := "DIV" }

/-- The same document with the visible border on the wrapper. -/
def exBorderDocZeroW : FieldDoc :=
  { exBorderDoc with selfWidth := "0px" }

/-- A border-extractor document whose selector matches nothing. -/
def exNotFoundField : FieldDoc :=
  { exBorderDoc with found := false }

/-- A background-resolver document whose selector matches nothing. -/
def exNotFoundCont : ContainerDoc :=
  { found := false, chain := [], focus := .onTarget }

/-- Chain refuting claim C1's inside-or-at reading: a solid plain
ancestor sits inside a transparent modal-marked ancestor, and a deeper
solid plain ancestor lies outside it. -/
def exC1Doc : ContainerDoc :=
  { found := true
    chain := [
      ⟨some "", "INPUT", none, "rgba(0, 0, 0, 0)"⟩,
      ⟨some "", "DIV", none, "rgb(255, 0, 0)"⟩,
      ⟨some "modal", "DIV", none, "rgba(0, 0, 0, 0)"⟩,
      ⟨some "", "DIV", none, "rgb(0, 0, 255)"⟩]
    focus := .nofocus }

/-- The container-priority scenario of the specification: transparent
target, solid dialog-marked inner ancestor, solid outer ancestor. -/
def exC1W : ContainerDoc :=
  { found := true
    chain := [
      ⟨some "", "INPUT", none, "rgba(0, 0, 0, 0)"⟩,
      ⟨some "dialog-content", "DIV", none, "rgb(255, 255, 255)"⟩,
      ⟨some "", "DIV", none, "rgb(238, 238, 238)"⟩]
    focus := .nofocus }

/-- A fallback scenario with no container-marked candidate: a solid
plain ancestor under a solid body. -/
def exC5Doc : ContainerDoc :=
  { found := true
    chain := [
      ⟨some "", "INPUT", none, "rgba(0, 0, 0, 0)"⟩,
      ⟨some "", "DIV", none, "rgb(250, 250, 250)"⟩,
      ⟨some "", "BODY", none, "rgb(255, 0, 0)"⟩]
    focus := .nofocus }

/-- A located background resolution performed while the target is
focused. -/
def exC8Doc : ContainerDoc :=
  { found := true
    chain := [⟨some "modal", "DIV", none, "rgb(255, 255, 255)"⟩]
    focus := .onTarget }

/-! ### Helper lemmas -/

theorem jsToUpperChar_ne_r (c : Char) : jsToUpperChar c ≠ 'r' := by
  unfold jsToUpperChar
  split
  · rename_i h
    intro hEq
    have h2 : (Char.ofNat (c.toNat - 32)).toNat = c.toNat - 32 := by
      have hv : (c.toNat - 32).isValidChar := Or.inl (by omega)
      rw [Char.ofNat, dif_pos hv]
      exact rfl
    rw [hEq] at h2
    have h3 : ('r').toNat = 114 := rfl
    omega
  · rename_i h
    intro hEq
    exact h (by rw [hEq]; exact ⟨by decide, by decide⟩)

theorem matchRgbAt_ne_r (c : Char) (hc : c ≠ 'r') (rest : List Char) :
    matchRgbAt (c :: rest) = none := by
  unfold matchRgbAt
  split
  · rename_i heq; injection heq with h1 _; exact absurd h1 hc
  · rename_i heq; injection heq with h1 _; exact absurd h1 hc
  · rfl

theorem jsMatchRgb_eq_none_of_no_r (l : List Char) (h : 'r' ∉ l) : jsMatchRgb l = none := by
  induction l with
  | nil => rfl
  | cons c rest ih =>
    have hc : c ≠ 'r' := fun he => h (he ▸ List.mem_cons_self c rest)
    have hr : 'r' ∉ rest := fun hm => h (List.mem_cons_of_mem c hm)
    simp only [jsMatchRgb, matchRgbAt_ne_r c hc rest]
    exact ih hr

theorem rgbToHex_of_match (s : String) (g1 g2 g3 : List Char) (g4 : Option (List Char))
    (hm : jsMatchRgb s.data = some (g1, g2, g3, g4)) :
    vortexRgbToHex s = String.mk ((hexCore g1 g2 g3 ++ alphaPart g4).map jsToUpperChar) := by
  unfold vortexRgbToHex
  rw [hm]

theorem rgbToHex_of_no_match (s : String) (hm : jsMatchRgb s.data = none) :
    vortexRgbToHex s = s := by
  unfold vortexRgbToHex
  rw [hm]

theorem padHex_two (n : Nat) (h : n ≤ 255) : (padStart2 (natToHex n)).length = 2 := by
  by_cases h16 : n < 16
  · have h1 : natToHex n = [hexDigitChar n] := by
      unfold natToHex natToHexAux
      rw [if_pos h16]
    rw [h1]
    simp [padStart2]
  · have hn : n ≠ 0 := by omega
    obtain ⟨m, rfl⟩ := Nat.exists_eq_succ_of_ne_zero hn
    have hdiv : (m + 1) / 16 < 16 := by omega
    have h2 : natToHex (m + 1) = [hexDigitChar ((m + 1) / 16)] ++ [hexDigitChar ((m + 1) % 16)] := by
      conv_lhs => unfold natToHex natToHexAux
      rw [if_neg h16]
      conv_lhs => unfold natToHexAux
      rw [if_pos hdiv]
    rw [h2]
    simp [padStart2]

theorem alphaByte_le (d : DecNum) (h : d.m ≤ 10 ^ d.s) : d.alphaByte ≤ 255 := by
  unfold DecNum.alphaByte
  have hp : 0 < 10 ^ d.s := pow_pos (by norm_num) d.s
  have h2 : 510 * d.m + 10 ^ d.s < 256 * (2 * 10 ^ d.s) := by omega
  have h3 := (Nat.div_lt_iff_lt_mul (by omega : 0 < 2 * 10 ^ d.s)).mpr (by omega : 510 * d.m + 10 ^ d.s < 256 * (2 * 10 ^ d.s))
  omega

theorem alphaByte_of_zero (d : DecNum) (h : d.m = 0) : d.alphaByte = 0 := by
  unfold DecNum.alphaByte
  rw [h]
  have hp : 0 < 10 ^ d.s := pow_pos (by norm_num) d.s
  exact Nat.div_eq_of_lt (by omega)

theorem isUpperHexDigit_up_hex (k : Nat) :
    isUpperHexDigit (jsToUpperChar (hexDigitChar k)) = true := by
  by_cases hk : k < 16
  · interval_cases k <;> decide
  · have hlen : ("0123456789abcdef".data).length = 16 := by decide
    have h0 : hexDigitChar k = '0' := by
      unfold hexDigitChar
      apply List.getD_eq_default
      omega
    rw [h0]
    decide

theorem natToHexAux_chars (fuel n : Nat) :
    ∀ c ∈ natToHexAux fuel n, ∃ k, c = hexDigitChar k := by
  induction fuel generalizing n with
  | zero => intro c hc; simp [natToHexAux] at hc
  | succ f ih =>
    intro c hc
    unfold natToHexAux at hc
    split at hc
    · simp at hc; exact ⟨n, hc⟩
    · rcases List.mem_append.1 hc with h | h
      · exact ih _ c h
      · simp at h; exact ⟨n % 16, h⟩

theorem padHex_all_upper (n : Nat) :
    ∀ c ∈ padStart2 (natToHex n), isUpperHexDigit (jsToUpperChar c) = true := by
  intro c hc
  unfold padStart2 at hc
  split at hc
  · rcases List.mem_append.1 hc with h | h
    · have h0 : c = '0' := List.eq_of_mem_replicate h
      rw [h0]; decide
    · obtain ⟨k, rfl⟩ := natToHexAux_chars _ _ c h
      exact isUpperHexDigit_up_hex k
  · obtain ⟨k, rfl⟩ := natToHexAux_chars _ _ c hc
    exact isUpperHexDigit_up_hex k

/-! ### Claim theorems -/

/-- C9: for every abstract power function and every rational OKLab
triple, `vortexOklabToRgb` returns three integers obtained by scaling
the gamma-corrected channels by 255, rounding, and clamping each
channel independently, and each lies within [0, 255]. -/
theorem oklabToRgb_bytes_in_range (powf : ℚ → ℚ → ℚ) (L a b : ℚ) :
    (0 ≤ (vortexOklabToRgb powf L a b).1 ∧ (vortexOklabToRgb powf L a b).1 ≤ 255) ∧
    (0 ≤ (vortexOklabToRgb powf L a b).2.1 ∧ (vortexOklabToRgb powf L a b).2.1 ≤ 255) ∧
    (0 ≤ (vortexOklabToRgb powf L a b).2.2 ∧ (vortexOklabToRgb powf L a b).2.2 ≤ 255) := by
  have hc : ∀ v : ℚ, 0 ≤ clampByte v ∧ clampByte v ≤ 255 := by
    intro v
    unfold clampByte
    exact ⟨le_max_left 0 _, max_le (by norm_num) (min_le_left _ _)⟩
  exact ⟨hc _, hc _, hc _⟩

/-- C7: an input on which the rgb/rgba pattern does not match is
returned unchanged, and `vortexRgbToHex` is idempotent on every
string, because a produced hex string (entirely uppercase) can never
match the lowercase rgb pattern again. -/
theorem rgbToHex_graceful_and_idempotent :
    (∀ s : String, jsMatchRgb s.data = none → vortexRgbToHex s = s) ∧
    (∀ s : String, vortexRgbToHex (vortexRgbToHex s) = vortexRgbToHex s) := by
  refine ⟨rgbToHex_of_no_match, fun s => ?_⟩
  cases hm : jsMatchRgb s.data with
  | none =>
    rw [rgbToHex_of_no_match s hm]
    exact rgbToHex_of_no_match s hm
  | some g =>
    obtain ⟨g1, g2, g3, g4⟩ := g
    rw [rgbToHex_of_match s g1 g2 g3 g4 hm]
    apply rgbToHex_of_no_match
    apply jsMatchRgb_eq_none_of_no_r
    intro hr
    have hd : (String.mk ((hexCore g1 g2 g3 ++ alphaPart g4).map jsToUpperChar)).data
        = (hexCore g1 g2 g3 ++ alphaPart g4).map jsToUpperChar := rfl
    rw [hd, List.mem_map] at hr
    obtain ⟨c, _, hc⟩ := hr
    exact jsToUpperChar_ne_r c hc

/-- Witness for C7: a non-matching string comes back unchanged. -/
theorem rgbToHex_graceful_and_idempotent_witness :
    vortexRgbToHex "not a color" = "not a color" :=
  rgbToHex_graceful_and_idempotent.1 "not a color" (by decide)

/-- C10: the conversion is driven entirely by the leftmost rgb/rgba
match, discarding all surrounding text, matching can start anywhere in
the string (appending text on the left preserves matchability), and
concrete embedded occurrences with a prefix and suffix, or with a
second later occurrence, convert to the hex code of the first embedded
color alone. -/
theorem rgbToHex_matches_embedded_substrings :
    (∀ (s : String) (g1 g2 g3 : List Char) (g4 : Option (List Char)),
        jsMatchRgb s.data = some (g1, g2, g3, g4) →
        vortexRgbToHex s = String.mk ((hexCore g1 g2 g3 ++ alphaPart g4).map jsToUpperChar)) ∧
    (∀ l1 l2 : List Char, (jsMatchRgb l2).isSome = true → (jsMatchRgb (l1 ++ l2)).isSome = true) ∧
    vortexRgbToHex "text before rgb(1, 2, 3) text after" = "#010203" ∧
    vortexRgbToHex "rgb(1, 2, 3) then rgb(4, 5, 6)" = "#010203" := by
  refine ⟨rgbToHex_of_match, ?_, by decide, by decide⟩
  intro l1 l2 h
  induction l1 with
  | nil => simpa using h
  | cons c rest ih =>
    show (jsMatchRgb (c :: (rest ++ l2))).isSome = true
    cases hAt : matchRgbAt (c :: (rest ++ l2)) with
    | some g => simp [jsMatchRgb, hAt]
    | none =>
      simp only [jsMatchRgb, hAt]
      exact ih

/-- Witness for C10: a padded occurrence converts through its groups. -/
theorem rgbToHex_matches_embedded_substrings_witness :
    vortexRgbToHex "pad rgb(10, 20, 30) pad" =
      String.mk ((hexCore ['1', '0'] ['2', '0'] ['3', '0'] ++ alphaPart none).map jsToUpperChar) :=
  rgbToHex_matches_embedded_substrings.1 "pad rgb(10, 20, 30) pad"
    ['1', '0'] ['2', '0'] ['3', '0'] none (by decide)

/-- C4: on a selector matching no element, both extractors fail with
the element-not-found error before performing any operation: the trace
is empty and the document state (in particular its focus) is returned
unchanged. -/
theorem extractors_fail_before_any_mutation (sel : String) (d : FieldDoc) (c : ContainerDoc)
    (hd : d.found = false) (hc : c.found = false) :
    (errMsg? (vortexExtractFormFieldBorderColor sel d).1 = some ("Element not found: " ++ sel) ∧
      (vortexExtractFormFieldBorderColor sel d).2.1 = d ∧
      (vortexExtractFormFieldBorderColor sel d).2.2 = []) ∧
    (errMsg? (vortexExtractFormContainerBackground sel c).1 = some ("Element not found: " ++ sel) ∧
      (vortexExtractFormContainerBackground sel c).2.1 = c ∧
      (vortexExtractFormContainerBackground sel c).2.2 = []) := by
  unfold vortexExtractFormFieldBorderColor vortexExtractFormContainerBackground
  rw [hd, hc]
  exact ⟨⟨rfl, rfl, rfl⟩, ⟨rfl, rfl, rfl⟩⟩

/-- Witness for C4: both extractors, on a missing selector, report the
not-found error and leave an empty trace. -/
theorem extractors_fail_before_any_mutation_witness :
    errMsg? (vortexExtractFormFieldBorderColor "#missing" exNotFoundField).1 =
      some ("Element not found: " ++ "#missing") ∧
    (vortexExtractFormFieldBorderColor "#missing" exNotFoundField).2.2 = ([] : List Ev) ∧
    errMsg? (vortexExtractFormContainerBackground "#missing" exNotFoundCont).1 =
      some ("Element not found: " ++ "#missing") ∧
    (vortexExtractFormContainerBackground "#missing" exNotFoundCont).2.2 = ([] : List Ev) := by
  have h := extractors_fail_before_any_mutation "#missing" exNotFoundField exNotFoundCont rfl rfl
  exact ⟨h.1.1, h.1.2.2, h.2.1, h.2.2.2⟩

/-! ### Border-extractor lemmas -/

theorem settleSteps_eq (d : FieldDoc) :
    settleSteps d =
      { d with
        focus := FocusSt.nofocus
        sinceBlur := (match d.focus with | FocusSt.onTarget => 0 | _ => d.sinceBlur) + 200 } := by
  obtain ⟨f1, fo, sb, td, rc, fc, mc, sw, scn, stn, pc, pw, pcn, ptn⟩ := d
  cases fo <;> rfl

theorem borderExtract_found (sel : String) (d : FieldDoc) (hf : d.found = true) :
    vortexExtractFormFieldBorderColor sel d =
      (if (settleSteps d).selfWidth == "0px" || (settleSteps d).selfWidth == "0" then
         Except.ok ⟨vortexRgbToHex (settleSteps d).parentColor,
                    jsOrStr (settleSteps d).parentClassName (settleSteps d).parentTagName,
                    (settleSteps d).parentWidth⟩
       else
         Except.ok ⟨vortexRgbToHex (computedBorderColor (settleSteps d)),
                    jsOrStr (settleSteps d).selfClassName (settleSteps d).selfTagName,
                    (settleSteps d).selfWidth⟩,
       settleSteps d,
       preReadEvs d ++ [Ev.wait 200, Ev.readStyle "borderWidth", Ev.readStyle "borderColor",
         Ev.readStyle "borderWidth"]) := by
  obtain ⟨f1, fo, sb, td, rc, fc, mc, sw, scn, stn, pc, pw, pcn, ptn⟩ := d
  subst hf
  cases fo <;> rfl

/-- C2: every located border extraction performs, in order, the
conditional active-element blur, the target blur, the neutral body
click, then the 200-unit settle delay, and only after the delay does
any computed-style read appear in the trace; consequently, for a
target focused at call time whose border transition completes within
the settle delay and which bears its own border, the reported color is
the converted resting color. -/
theorem restingBorder_settles_then_reads (sel : String) (d : FieldDoc) (hf : d.found = true) :
    ((vortexExtractFormFieldBorderColor sel d).2.2 =
      preReadEvs d ++ [Ev.wait 200, Ev.readStyle "borderWidth", Ev.readStyle "borderColor",
        Ev.readStyle "borderWidth"]) ∧
    (∀ p : String, Ev.readStyle p ∉ preReadEvs d) ∧
    (d.focus = .onTarget → d.transDur ≤ 200 →
      ¬(d.selfWidth = "0px" ∨ d.selfWidth = "0") →
      fieldColor? (vortexExtractFormFieldBorderColor sel d).1 = some (vortexRgbToHex d.restColor)) := by
  refine ⟨?_, ?_, ?_⟩
  · rw [borderExtract_found sel d hf]
  · intro p
    unfold preReadEvs
    cases d.focus <;> simp
  · intro h1 h2 h3
    push_neg at h3
    rw [borderExtract_found sel d hf]
    rw [settleSteps_eq d, h1]
    dsimp only
    rw [if_neg (by simp [h3.1, h3.2])]
    unfold computedBorderColor
    dsimp only
    rw [if_neg (by omega)]
    rfl

/-- Witness for C2: the Playwright scenario, focused at call time,
settles to the resting border color. -/
theorem restingBorder_settles_then_reads_witness :
    fieldColor? (vortexExtractFormFieldBorderColor "input" exBorderDoc).1 =
      some (vortexRgbToHex "rgb(235, 230, 223)") :=
  (restingBorder_settles_then_reads "input" exBorderDoc rfl).2.2 rfl (by decide) (by decide)

/-- C6: a located target whose own computed border width is the zero
string delegates both border reads to its structural parent, and a
target with a non-zero width is read itself. -/
theorem restingBorder_border_bearing (sel : String) (d : FieldDoc) (hf : d.found = true) :
    ((d.selfWidth = "0px" ∨ d.selfWidth = "0") →
      fieldColor? (vortexExtractFormFieldBorderColor sel d).1 = some (vortexRgbToHex d.parentColor) ∧
      fieldWidth? (vortexExtractFormFieldBorderColor sel d).1 = some d.parentWidth) ∧
    (¬(d.selfWidth = "0px" ∨ d.selfWidth = "0") →
      fieldColor? (vortexExtractFormFieldBorderColor sel d).1 =
        some (vortexRgbToHex (computedBorderColor (settleSteps d))) ∧
      fieldWidth? (vortexExtractFormFieldBorderColor sel d).1 = some d.selfWidth) := by
  rw [borderExtract_found sel d hf, settleSteps_eq d]
  dsimp only
  constructor
  · intro h
    rw [if_pos (by rcases h with h | h <;> simp [h])]
    exact ⟨rfl, rfl⟩
  · intro h
    push_neg at h
    rw [if_neg (by simp [h.1, h.2])]
    exact ⟨rfl, rfl⟩

/-- Witness for C6: with a zero-width self border the wrapper's color
and width are reported. -/
theorem restingBorder_border_bearing_witness :
    fieldColor? (vortexExtractFormFieldBorderColor "input" exBorderDocZeroW).1 =
      some (vortexRgbToHex "rgb(9, 9, 9)") ∧
    fieldWidth? (vortexExtractFormFieldBorderColor "input" exBorderDocZeroW).1 = some "1px" :=
  (restingBorder_border_bearing "input" exBorderDocZeroW rfl).1 (Or.inl rfl)

/-- Counterexample to C8: a located background resolution performed
while the target is focused succeeds, returns the document state
unchanged (focus still on the target), and its trace holds only
computed-style reads — the container extractor mutates no focus. -/
theorem containerBackground_no_focus_mutation_counterexample :
    resultColor? (vortexExtractFormContainerBackground "input" exC8Doc).1 = some "#FFFFFF" ∧
    (vortexExtractFormContainerBackground "input" exC8Doc).2.1 = exC8Doc ∧
    exC8Doc.focus = FocusSt.onTarget ∧
    (vortexExtractFormContainerBackground "input" exC8Doc).2.2 =
      [Ev.readStyle "backgroundColor"] := by
  refine ⟨by decide, rfl, rfl, rfl⟩

/-- C8 as amended: every located call of the border extractor performs
focus mutations (it unconditionally blurs the target, and a target
focused at call time is no longer focused afterwards), so callers
cannot assume focus is preserved across it; the background resolver,
by contrast, never mutates focus: it returns the document unchanged
and its trace holds only computed-style reads. -/
theorem borderColor_mutates_focus_container_does_not (sel : String) (d : FieldDoc)
    (c : ContainerDoc) (hf : d.found = true) :
    Ev.blurTarget ∈ (vortexExtractFormFieldBorderColor sel d).2.2 ∧
    (d.focus = .onTarget → (vortexExtractFormFieldBorderColor sel d).2.1.focus ≠ .onTarget) ∧
    (vortexExtractFormContainerBackground sel c).2.1 = c ∧
    (∀ e ∈ (vortexExtractFormContainerBackground sel c).2.2,
      e = Ev.readStyle "backgroundColor") := by
  refine ⟨?_, ?_, ?_, ?_⟩
  · rw [borderExtract_found sel d hf]
    unfold preReadEvs
    cases d.focus <;> simp
  · intro h1
    rw [borderExtract_found sel d hf, settleSteps_eq d]
    dsimp only
    simp
  · obtain ⟨cf, cch, cfo⟩ := c
    cases cf <;> rfl
  · obtain ⟨cf, cch, cfo⟩ := c
    cases cf
    · intro e he
      simp [vortexExtractFormContainerBackground] at he
    · intro e he
      have ht : (vortexExtractFormContainerBackground sel ⟨true, cch, cfo⟩).2.2 =
          (cch.take 15).map fun _ => Ev.readStyle "backgroundColor" := rfl
      rw [ht, List.mem_map] at he
      obtain ⟨x, _, hx⟩ := he
      exact hx.symm

/-- Witness for the amended C8: in the Playwright scenario the border
extractor's trace blurs the target, and the focused container document
is left untouched. -/
theorem borderColor_mutates_focus_container_does_not_witness :
    Ev.blurTarget ∈ (vortexExtractFormFieldBorderColor "input" exBorderDoc).2.2 ∧
    (vortexExtractFormContainerBackground "input" exC8Doc).2.1 = exC8Doc :=
  ⟨(borderColor_mutates_focus_container_does_not "input" exBorderDoc exC8Doc rfl).1,
   (borderColor_mutates_focus_container_does_not "input" exBorderDoc exC8Doc rfl).2.2.1⟩

/-! ### Background-resolver lemmas -/

theorem collectBgAux_mem {p : Nat × VElem} :
    ∀ (i : Nat) (l : List VElem), p ∈ collectBgAux i l → p.2 ∈ l := by
  intro i l
  induction l generalizing i with
  | nil => intro h; simp [collectBgAux] at h
  | cons e rest ih =>
    intro h
    unfold collectBgAux at h
    by_cases hi : i < 15
    · rw [if_pos hi] at h
      rcases List.mem_append.1 h with h1 | h2
      · split at h1
        · simp at h1
        · simp at h1
          rw [h1]
          exact List.mem_cons_self e rest
      · exact List.mem_cons_of_mem _ (ih (i + 1) h2)
    · rw [if_neg hi] at h
      simp at h

theorem collectBg_mem {p : Nat × VElem} {chain : List VElem} (h : p ∈ collectBg chain) :
    p.2 ∈ chain :=
  collectBgAux_mem 0 chain h

theorem pickFallback_eq_find (l : List (Nat × VElem)) :
    pickFallback l = l.find? fun p => !(isRootTag p.2) && isSolidColor p.2.bgColor := by
  induction l with
  | nil => rfl
  | cons p rest ih =>
    unfold pickFallback
    by_cases hr : isRootTag p.2
    · rw [if_pos hr, List.find?_cons]
      have : (!(isRootTag p.2) && isSolidColor p.2.bgColor) = false := by simp [hr]
      rw [this]
      exact ih
    · rw [if_neg hr]
      by_cases hs : isSolidColor p.2.bgColor
      · rw [if_pos hs, List.find?_cons]
        have : (!(isRootTag p.2) && isSolidColor p.2.bgColor) = true := by simp [hr, hs]
        rw [this]
      · rw [if_neg hs, List.find?_cons]
        have : (!(isRootTag p.2) && isSolidColor p.2.bgColor) = false := by simp [hs]
        rw [this]
        exact ih

theorem mem_of_getLast?_eq_some {α : Type} {l : List α} {a : α} (h : l.getLast? = some a) :
    a ∈ l := by
  induction l with
  | nil => simp [List.getLast?] at h
  | cons x xs ih =>
    cases xs with
    | nil =>
      simp [List.getLast?] at h
      simp [h]
    | cons y ys =>
      rw [List.getLast?_cons_cons] at h
      exact List.mem_cons_of_mem _ (ih h)

theorem getLast?_isSome_of_ne_nil {α : Type} {l : List α} (h : l ≠ []) :
    ∃ a, l.getLast? = some a := by
  induction l with
  | nil => exact absurd rfl h
  | cons x xs ih =>
    cases xs with
    | nil => exact ⟨x, rfl⟩
    | cons y ys =>
      obtain ⟨a, ha⟩ := ih (by simp)
      exact ⟨a, by rw [List.getLast?_cons_cons]; exact ha⟩

/-- Counterexample to C1: in `exC1Doc` the lowest-depth candidate that
is solid and inside-or-at a container-marked element is the red
ancestor inside the transparent modal, yet the extractor returns the
hex of the deeper solid blue ancestor found by the fallback scan —
membership inside a marked container does not qualify a candidate for
the container rule; only the candidate's own element is tested. -/
theorem containerBackground_container_rule_counterexample :
    claimC1Pick exC1Doc.chain = some "rgb(255, 0, 0)" ∧
    vortexRgbToHex "rgb(255, 0, 0)" = "#FF0000" ∧
    resultColor? (vortexExtractFormContainerBackground "input" exC1Doc).1 = some "#0000FF" := by
  refine ⟨by decide, by decide, by decide⟩

/-- C1 as amended: whenever some recorded candidate is both solid and
itself at a semantic-container element (its own class list carries a
modal/dialog/form marker, its tag is DIALOG, or it has the dialog
role), the extractor returns the color of the lowest-depth such
candidate (colors assumed non-empty as every engine-reported color
is). -/
theorem containerBackground_container_rule (sel : String) (c : ContainerDoc)
    (hf : c.found = true)
    (hne : ∀ e ∈ c.chain, ¬(e.bgColor = ""))
    (i : Nat) (e : VElem)
    (hfind : (collectBg c.chain).find? codeQualifies = some (i, e)) :
    resultColor? (vortexExtractFormContainerBackground sel c).1 =
      some (vortexRgbToHex e.bgColor) := by
  have hmem : (i, e) ∈ collectBg c.chain := List.mem_of_find?_eq_some hfind
  have hneq : ¬(e.bgColor = "") := hne e (collectBg_mem hmem)
  have hbeq : (e.bgColor == "") = false := by simp [hneq]
  unfold codeQualifies at hfind
  unfold vortexExtractFormContainerBackground
  rw [hf]
  dsimp only
  unfold selectContainerRule
  rw [hfind]
  unfold selectFallbackRule selectLastRule strFalsy
  dsimp only
  rw [hbeq]
  simp [hbeq, resultColor?]

/-- Witness for the amended C1: the specification's own scenario (outer
solid background, inner solid dialog-marked element, transparent
target) returns the dialog element's color. -/
theorem containerBackground_container_rule_witness :
    resultColor? (vortexExtractFormContainerBackground "input" exC1W).1 =
      some (vortexRgbToHex "rgb(255, 255, 255)") :=
  containerBackground_container_rule "input" exC1W rfl (by decide) 1
    ⟨some "dialog-content", "DIV", none, "rgb(255, 255, 255)"⟩ (by decide)

theorem container_path_err (sel : String) (c : ContainerDoc) (hf : c.found = true)
    (hempty : collectBg c.chain = []) :
    (vortexExtractFormContainerBackground sel c).1 =
      Except.error "Could not find form container background" := by
  unfold vortexExtractFormContainerBackground
  rw [hf]
  dsimp only
  rw [hempty]
  rfl

theorem container_path_b (sel : String) (c : ContainerDoc) (hf : c.found = true)
    (hnoA : (collectBg c.chain).find? codeQualifies = none)
    (i : Nat) (e : VElem)
    (hfb : specFallbackFind (collectBg c.chain) = some (i, e))
    (hneq : ¬(e.bgColor = "")) :
    (vortexExtractFormContainerBackground sel c).1 =
      Except.ok ⟨vortexRgbToHex e.bgColor, containerDescriptor (some e)⟩ := by
  have hbeq : (e.bgColor == "") = false := by simp [hneq]
  unfold codeQualifies at hnoA
  unfold specFallbackFind at hfb
  unfold vortexExtractFormContainerBackground
  rw [hf]
  dsimp only
  unfold selectContainerRule
  rw [hnoA]
  unfold selectFallbackRule strFalsy
  dsimp only
  rw [pickFallback_eq_find, hfb]
  unfold selectLastRule strFalsy
  simp [hbeq]

theorem container_path_c (sel : String) (c : ContainerDoc) (hf : c.found = true)
    (hnoA : (collectBg c.chain).find? codeQualifies = none)
    (hfbn : specFallbackFind (collectBg c.chain) = none)
    (i : Nat) (e : VElem)
    (hlast : (collectBg c.chain).getLast? = some (i, e))
    (hneq : ¬(e.bgColor = "")) :
    (vortexExtractFormContainerBackground sel c).1 =
      Except.ok ⟨vortexRgbToHex e.bgColor, containerDescriptor (some e)⟩ := by
  have hbeq : (e.bgColor == "") = false := by simp [hneq]
  have hnonempty : (collectBg c.chain).isEmpty = false := by
    cases hl : collectBg c.chain with
    | nil => rw [hl] at hlast; simp [List.getLast?] at hlast
    | cons x xs => rfl
  unfold codeQualifies at hnoA
  unfold specFallbackFind at hfbn
  unfold vortexExtractFormContainerBackground
  rw [hf]
  dsimp only
  unfold selectContainerRule
  rw [hnoA]
  unfold selectFallbackRule strFalsy
  dsimp only
  rw [pickFallback_eq_find, hfbn]
  unfold selectLastRule strFalsy
  simp [hnonempty, hlast, hbeq]

/-- C5: when no recorded candidate passes the container rule, the
extractor scans the candidates from the highest depth downward and
returns the first solid one that is not a body/html element; when no
such candidate exists it returns the highest-depth recorded candidate
regardless of opacity; and it fails with the container-not-found error
exactly when the 15-level walk recorded no candidate at all (colors
assumed non-empty as every engine-reported color is). -/
theorem containerBackground_fallback_and_error (sel : String) (c : ContainerDoc)
    (hf : c.found = true)
    (hne : ∀ e ∈ c.chain, ¬(e.bgColor = ""))
    (hnoA : (collectBg c.chain).find? codeQualifies = none) :
    (isErr (vortexExtractFormContainerBackground sel c).1 = true ↔ collectBg c.chain = []) ∧
    (∀ i e, specFallbackFind (collectBg c.chain) = some (i, e) →
      resultColor? (vortexExtractFormContainerBackground sel c).1 =
        some (vortexRgbToHex e.bgColor)) ∧
    (specFallbackFind (collectBg c.chain) = none →
      ∀ i e, (collectBg c.chain).getLast? = some (i, e) →
        resultColor? (vortexExtractFormContainerBackground sel c).1 =
          some (vortexRgbToHex e.bgColor)) := by
  have hmemB : ∀ i e, specFallbackFind (collectBg c.chain) = some (i, e) → ¬(e.bgColor = "") := by
    intro i e hfb
    unfold specFallbackFind at hfb
    have h1 : (i, e) ∈ (collectBg c.chain).reverse := List.mem_of_find?_eq_some hfb
    exact hne e (collectBg_mem (List.mem_reverse.1 h1))
  have hmemC : ∀ i e, (collectBg c.chain).getLast? = some (i, e) → ¬(e.bgColor = "") := by
    intro i e hlast
    exact hne e (collectBg_mem (mem_of_getLast?_eq_some hlast))
  refine ⟨⟨?_, ?_⟩, ?_, ?_⟩
  · intro herr
    by_contra hemp
    cases hfb : specFallbackFind (collectBg c.chain) with
    | some p =>
      obtain ⟨i, e⟩ := p
      rw [container_path_b sel c hf hnoA i e hfb (hmemB i e hfb)] at herr
      simp [isErr] at herr
    | none =>
      obtain ⟨p, hlast⟩ := getLast?_isSome_of_ne_nil hemp
      obtain ⟨i, e⟩ := p
      rw [container_path_c sel c hf hnoA hfb i e hlast (hmemC i e hlast)] at herr
      simp [isErr] at herr
  · intro hempty
    rw [container_path_err sel c hf hempty]
    rfl
  · intro i e hfb
    rw [container_path_b sel c hf hnoA i e hfb (hmemB i e hfb)]
    rfl
  · intro hfbn i e hlast
    rw [container_path_c sel c hf hnoA hfbn i e hlast (hmemC i e hlast)]
    rfl

/-- Witness for C5: with no container-marked candidate, the deepest
solid non-body candidate's color is returned. -/
theorem containerBackground_fallback_and_error_witness :
    resultColor? (vortexExtractFormContainerBackground "input" exC5Doc).1 =
      some (vortexRgbToHex "rgb(250, 250, 250)") :=
  (containerBackground_fallback_and_error "input" exC5Doc rfl (by decide) (by decide)).2.1
    1 ⟨some "", "DIV", none, "rgb(250, 250, 250)"⟩ (by decide)

theorem hexCore_length (g1 g2 g3 : List Char)
    (hr : digitsToNat g1 ≤ 255) (hg : digitsToNat g2 ≤ 255) (hb : digitsToNat g3 ≤ 255) :
    (hexCore g1 g2 g3).length = 7 := by
  unfold hexCore
  simp only [List.length_cons, List.length_append]
  rw [padHex_two _ hr, padHex_two _ hg, padHex_two _ hb]

theorem hexCore_drop7 (g1 g2 g3 extra : List Char)
    (hr : digitsToNat g1 ≤ 255) (hg : digitsToNat g2 ≤ 255) (hb : digitsToNat g3 ≤ 255) :
    ((hexCore g1 g2 g3 ++ extra).map jsToUpperChar).drop 7 = extra.map jsToUpperChar := by
  have h7 : ((hexCore g1 g2 g3).map jsToUpperChar).length = 7 := by
    rw [List.length_map]
    exact hexCore_length g1 g2 g3 hr hg hb
  rw [List.map_append, ← h7, List.drop_left]

theorem hexCore_head_all (g1 g2 g3 extra : List Char)
    (hextra : ∀ c ∈ extra, isUpperHexDigit (jsToUpperChar c) = true) :
    ((hexCore g1 g2 g3 ++ extra).map jsToUpperChar).head? = some '#' ∧
    (∀ c ∈ ((hexCore g1 g2 g3 ++ extra).map jsToUpperChar).drop 1,
      isUpperHexDigit c = true) := by
  unfold hexCore
  constructor
  · simp only [List.cons_append, List.map_cons, List.head?_cons]
    decide
  · intro c hc
    simp only [List.cons_append, List.map_cons] at hc
    rw [List.drop_succ_cons, List.drop_zero, List.mem_map] at hc
    obtain ⟨c0, hc0, rfl⟩ := hc
    rcases List.mem_append.1 hc0 with h | h
    · rcases List.mem_append.1 h with h | h
      · rcases List.mem_append.1 h with h | h
        · exact padHex_all_upper _ c0 h
        · exact padHex_all_upper _ c0 h
      · exact padHex_all_upper _ c0 h
    · exact hextra c0 h

/-- C3: for an input whose rgb/rgba match has channels at most 255 and
a well-defined alpha in [0, 1], the produced string is a hash followed
only by uppercase hex digits; the alpha byte (two further digits) is
appended exactly when the alpha group is present and its value is not
1, so the digit count is 6 or 8 (string length 7 or 9) and never 2 or
4; an appended byte is the padded hex of `round(a * 255)`, and alpha 0
is encoded as the two digits 00 rather than omitted. -/
theorem rgbToHex_digit_count (s : String) (g1 g2 g3 : List Char) (g4 : Option (List Char))
    (hm : jsMatchRgb s.data = some (g1, g2, g3, g4))
    (hr : digitsToNat g1 ≤ 255) (hg : digitsToNat g2 ≤ 255) (hb : digitsToNat g3 ≤ 255)
    (ha : ∀ l, g4 = some l → ∃ d, jsParseFloat l = some d ∧ d.m ≤ 10 ^ d.s) :
    ((vortexRgbToHex s).length = 7 ∨ (vortexRgbToHex s).length = 9) ∧
    ((vortexRgbToHex s).length = 9 ↔
      ∃ l d, g4 = some l ∧ jsParseFloat l = some d ∧ d.isOne = false) ∧
    (∀ l d, g4 = some l → jsParseFloat l = some d → d.isOne = false →
      (vortexRgbToHex s).data.drop 7 = (padStart2 (natToHex d.alphaByte)).map jsToUpperChar) ∧
    (∀ l d, g4 = some l → jsParseFloat l = some d → d.m = 0 →
      (vortexRgbToHex s).data.drop 7 = ['0', '0']) ∧
    (vortexRgbToHex s).data.head? = some '#' ∧
    (∀ c ∈ (vortexRgbToHex s).data.drop 1, isUpperHexDigit c = true) := by
  have hdata : (vortexRgbToHex s).data = (hexCore g1 g2 g3 ++ alphaPart g4).map jsToUpperChar := by
    rw [rgbToHex_of_match s g1 g2 g3 g4 hm]
  have hslen : (vortexRgbToHex s).length = (vortexRgbToHex s).data.length := rfl
  have hlen : (vortexRgbToHex s).length = 7 + (alphaPart g4).length := by
    rw [hslen, hdata, List.length_map, List.length_append, hexCore_length g1 g2 g3 hr hg hb]
  have halpha :
      ((alphaPart g4 = [] ∧ ∀ l d, g4 = some l → jsParseFloat l = some d → d.isOne = true) ∨
       (∃ l d, g4 = some l ∧ jsParseFloat l = some d ∧ d.isOne = false ∧
         alphaPart g4 = padStart2 (natToHex d.alphaByte) ∧ d.m ≤ 10 ^ d.s)) := by
    cases g4 with
    | none =>
      left
      exact ⟨rfl, fun l d h => nomatch h⟩
    | some l =>
      obtain ⟨d, hpd, hdm⟩ := ha l rfl
      by_cases h1 : d.isOne
      · left
        refine ⟨by simp only [alphaPart]; rw [hpd]; simp [h1], ?_⟩
        intro l2 d2 he hp2
        injection he with he2
        subst he2
        rw [hpd] at hp2
        injection hp2 with hd2
        rw [← hd2]
        exact h1
      · right
        refine ⟨l, d, rfl, hpd, by simpa using h1, ?_, hdm⟩
        simp only [alphaPart]
        rw [hpd]
        simp [h1]
  rcases halpha with ⟨hap, hall⟩ | ⟨l, d, hel, hpd, h1, hap, hdm⟩
  · refine ⟨?_, ?_, ?_, ?_, ?_, ?_⟩
    · left; rw [hlen, hap]; rfl
    · constructor
      · intro h9
        rw [hlen, hap] at h9
        simp at h9
      · rintro ⟨l2, d2, hel2, hpd2, h12⟩
        have := hall l2 d2 hel2 hpd2
        rw [this] at h12
        exact absurd h12 (by simp)
    · intro l2 d2 hel2 hpd2 h12
      have := hall l2 d2 hel2 hpd2
      rw [this] at h12
      exact absurd h12 (by simp)
    · intro l2 d2 hel2 hpd2 hm0
      have hone := hall l2 d2 hel2 hpd2
      have hp : 0 < 10 ^ d2.s := pow_pos (by norm_num) d2.s
      have hfalse : d2.isOne = false := by
        unfold DecNum.isOne
        rw [hm0]
        simp only [beq_eq_false_iff_ne]
        omega
      rw [hfalse] at hone
      exact absurd hone (by simp)
    · rw [hdata]
      exact (hexCore_head_all g1 g2 g3 (alphaPart g4) (by rw [hap]; intro c hc; simp at hc)).1
    · rw [hdata]
      exact (hexCore_head_all g1 g2 g3 (alphaPart g4) (by rw [hap]; intro c hc; simp at hc)).2
  · have hlenA : (alphaPart g4).length = 2 := by
      rw [hap]
      exact padHex_two _ (alphaByte_le d hdm)
    have hup : ∀ c ∈ alphaPart g4, isUpperHexDigit (jsToUpperChar c) = true := by
      rw [hap]
      exact padHex_all_upper _
    refine ⟨?_, ?_, ?_, ?_, ?_, ?_⟩
    · right; rw [hlen, hlenA]
    · constructor
      · intro _
        exact ⟨l, d, hel, hpd, h1⟩
      · intro _
        rw [hlen, hlenA]
    · intro l2 d2 hel2 hpd2 _
      rw [hel] at hel2
      injection hel2 with he2
      subst he2
      rw [hpd] at hpd2
      injection hpd2 with hd2
      subst hd2
      rw [hdata, hexCore_drop7 g1 g2 g3 _ hr hg hb, hap]
    · intro l2 d2 hel2 hpd2 hm0
      rw [hel] at hel2
      injection hel2 with he2
      subst he2
      rw [hpd] at hpd2
      injection hpd2 with hd2
      subst hd2
      rw [hdata, hexCore_drop7 g1 g2 g3 _ hr hg hb, hap, alphaByte_of_zero _ hm0]
      decide
    · rw [hdata]
      exact (hexCore_head_all g1 g2 g3 (alphaPart g4) hup).1
    · rw [hdata]
      exact (hexCore_head_all g1 g2 g3 (alphaPart g4) hup).2

/-- Witness for C3: fully transparent black keeps its alpha byte 00. -/
theorem rgbToHex_digit_count_witness :
    (vortexRgbToHex "rgba(0, 0, 0, 0)").data.drop 7 = ['0', '0'] :=
  (rgbToHex_digit_count "rgba(0, 0, 0, 0)" ['0'] ['0'] ['0'] (some ['0'])
    (by decide) (by decide) (by decide) (by decide)
    (fun l hl => by
      injection hl with h
      rw [← h]
      exact ⟨⟨0, 0⟩, by decide, by decide⟩)).2.2.2.1 ['0'] ⟨0, 0⟩ rfl (by decide) rfl
